import Mathlib

/-!
Verification of the construction-defect tracking suite
(`svc_defects`, `svc_gateway`, `svc_reports`).

The Python services are shallowly embedded: each relevant function is
translated into an executable Lean definition, HTTP-level exceptions become
`Except` values, SQLAlchemy persistence becomes explicit state passing, and
Python `float` time arithmetic is modelled with exact rationals (`ℚ`).
-/

/-- Defect lifecycle statuses (`models/defects.py`, `DefectStatus`). -/
inductive DefectStatus
  | NEW
  | IN_PROGRESS
  | ON_REVIEW
  | CLOSED
  | CANCELED
deriving DecidableEq, Repr, Fintype

/-- Defect priorities (`models/defects.py`, `DefectPriority`). -/
inductive DefectPriority
  | LOW
  | MEDIUM
  | HIGH
  | CRITICAL
deriving DecidableEq, Repr, Fintype

/-- `DefectStatus.value` — the string value of the enum member. -/
def DefectStatus.val : DefectStatus → String
  | .NEW => "NEW"
  | .IN_PROGRESS => "IN_PROGRESS"
  | .ON_REVIEW => "ON_REVIEW"
  | .CLOSED => "CLOSED"
  | .CANCELED => "CANCELED"

/-- `DefectPriority.value` — the string value of the enum member. -/
def DefectPriority.val : DefectPriority → String
  | .LOW => "LOW"
  | .MEDIUM => "MEDIUM"
  | .HIGH => "HIGH"
  | .CRITICAL => "CRITICAL"

/-- A raised `fastapi.HTTPException`: HTTP status code plus detail message. -/
structure HTTPError where
  code : Nat
  detail : String
deriving DecidableEq, Repr

/-- The fixed adjacency table `valid_transitions` of
`check_valid_status_transition` (`api/deps.py`); `.get(current, [])`
yields `[]` for statuses that are not keys of the dict. -/
def valid_transitions : DefectStatus → List DefectStatus
  | .NEW => [.IN_PROGRESS, .CANCELED]
  | .IN_PROGRESS => [.ON_REVIEW, .CANCELED]
  | .ON_REVIEW => [.CLOSED, .IN_PROGRESS, .CANCELED]
  | .CLOSED => []
  | .CANCELED => []

/-- `check_valid_status_transition` (`svc_defects/api/deps.py`): returns
`True` for a legal move and raises `HTTPException 400` otherwise. -/
def check_valid_status_transition (current_status new_status : DefectStatus) :
    Except HTTPError Bool :=
  if current_status = new_status then
    .ok true
  else if current_status = .CLOSED ∨ current_status = .CANCELED then
    .error ⟨400, "Cannot change status from " ++ current_status.val ++
      ". It is a final status."⟩
  else
    let allowed_statuses := valid_transitions current_status
    if new_status ∈ allowed_statuses then
      .ok true
    else
      .error ⟨400, "Invalid status transition from " ++ current_status.val ++
        " to " ++ new_status.val ++ ". Allowed transitions: " ++
        String.intercalate ", " (allowed_statuses.map DefectStatus.val)⟩

/-- Whether an `Except` result is a success. -/
def exceptOk {ε α : Type} : Except ε α → Bool
  | .ok _ => true
  | .error _ => false

/-- The HTTP status code of a failed result (`0` on success). -/
def exceptCode {α : Type} : Except HTTPError α → Nat
  | .ok _ => 0
  | .error e => e.code

/-- The legality table exactly as the claim states it: a pair is legal iff the
statuses are equal, or the source status is non-final and the target is in the
claimed adjacency list. -/
def claimLegalPairs : List (DefectStatus × DefectStatus) :=
  [(.NEW, .IN_PROGRESS), (.NEW, .CANCELED),
   (.IN_PROGRESS, .ON_REVIEW), (.IN_PROGRESS, .CANCELED),
   (.ON_REVIEW, .CLOSED), (.ON_REVIEW, .IN_PROGRESS), (.ON_REVIEW, .CANCELED)]

/-- C1: for every pair of defect statuses the transition validator accepts iff
`current = proposed` or `current` is non-final and `proposed` is in the fixed
adjacency table; every rejection is signalled as an HTTP 400 error; and the
legality relation is not symmetric: ON_REVIEW→IN_PROGRESS and
IN_PROGRESS→ON_REVIEW are both legal while IN_PROGRESS→NEW is illegal. -/
theorem check_valid_status_transition_characterization :
    (∀ c p : DefectStatus,
      (exceptOk (check_valid_status_transition c p) = true ↔
        (c = p ∨ (c ≠ .CLOSED ∧ c ≠ .CANCELED ∧ (c, p) ∈ claimLegalPairs)))
      ∧ (exceptOk (check_valid_status_transition c p) = true ∨
          exceptCode (check_valid_status_transition c p) = 400))
    ∧ exceptOk (check_valid_status_transition .ON_REVIEW .IN_PROGRESS) = true
    ∧ exceptOk (check_valid_status_transition .IN_PROGRESS .ON_REVIEW) = true
    ∧ exceptOk (check_valid_status_transition .IN_PROGRESS .NEW) = false := by
  refine ⟨?_, by decide, by decide, by decide⟩
  decide

/-! ## Defect update orchestrator (`svc_defects/api/v1/defects.py`) -/

/-- The six tracked fields of the update loop in `update_defect`. -/
inductive TrackedField
  | status
  | priority
  | assignee_id
  | due_date
  | title
  | location
deriving DecidableEq, Repr, Fintype

/-- The Python name of a tracked field, as stored in `field_name`. -/
def TrackedField.pyName : TrackedField → String
  | .status => "status"
  | .priority => "priority"
  | .assignee_id => "assignee_id"
  | .due_date => "due_date"
  | .title => "title"
  | .location => "location"

/-- The `tracked_fields` list of `update_defect`, in source order. -/
def tracked_fields : List TrackedField :=
  [.status, .priority, .assignee_id, .due_date, .title, .location]

/-- A Python value held by a tracked defect field: `None`, a string-like value
(str, UUID and date are all rendered as their text form), or an enum member. -/
inductive FieldVal
  | vNone
  | vStr (s : String)
  | vStatus (s : DefectStatus)
  | vPriority (p : DefectPriority)
deriving DecidableEq, Repr

/-- Python `str()` of a field value (`str`-mixin enum members render as
`ClassName.MEMBER`; UUIDs and dates as their text form, which `vStr` holds). -/
def FieldVal.pyStr : FieldVal → String
  | .vNone => "None"
  | .vStr s => s
  | .vStatus s => "DefectStatus." ++ s.val
  | .vPriority p => "DefectPriority." ++ p.val

/-- `str(value) if value is not None else None` — the snapshot stored by
`_create_history_entry`. -/
def strOrNone : FieldVal → Option String
  | .vNone => none
  | v => some v.pyStr

/-- The defect row, with the fields read and written by `update_defect`
(`assignee_id`/`due_date` hold the text form of the UUID/date). -/
structure Defect where
  id : String
  title : String
  description : String
  priority : DefectPriority
  status : DefectStatus
  author_id : String
  assignee_id : Option String
  due_date : Option String
  location : Option String
  updated_at : ℚ
deriving DecidableEq, Repr

/-- A row of `defect_history` as staged by `_create_history_entry`
(the server-generated `id`/`changed_at` columns are omitted). -/
structure DefectHistory where
  defect_id : String
  changed_by_id : String
  field_name : String
  old_value : Option String
  new_value : Option String
deriving DecidableEq, Repr

/-- `_create_history_entry` (`api/v1/defects.py`): builds one history row,
stringifying non-null values and keeping nulls as nulls. -/
def create_history_entry (defect_id changed_by_id field_name : String)
    (old_value new_value : FieldVal) : DefectHistory :=
  { defect_id := defect_id
    changed_by_id := changed_by_id
    field_name := field_name
    old_value := strOrNone old_value
    new_value := strOrNone new_value }

/-- The `DefectUpdate` PATCH payload after `model_dump(exclude_unset=True)`:
an outer `none` means the field was not sent; for nullable columns the inner
option distinguishes an explicit `null` from a value. -/
structure DefectUpdate where
  title : Option String := none
  description : Option String := none
  priority : Option DefectPriority := none
  status : Option DefectStatus := none
  assignee_id : Option (Option String) := none
  due_date : Option (Option String) := none
  location : Option (Option String) := none
deriving DecidableEq, Repr

/-- A nullable Python string value (`None` or a string-like value). -/
def optVal : Option String → FieldVal
  | none => .vNone
  | some s => .vStr s

/-- `getattr(defect, field)` for a tracked field, as a Python value. -/
def defectGet (d : Defect) : TrackedField → FieldVal
  | .status => .vStatus d.status
  | .priority => .vPriority d.priority
  | .assignee_id => optVal d.assignee_id
  | .due_date => optVal d.due_date
  | .title => .vStr d.title
  | .location => optVal d.location

/-- `update_data[field]` for a tracked field: `none` when the field is absent
from the payload, otherwise the sent Python value. -/
def payloadGet (u : DefectUpdate) : TrackedField → Option FieldVal
  | .status => u.status.map .vStatus
  | .priority => u.priority.map .vPriority
  | .assignee_id => u.assignee_id.map optVal
  | .due_date => u.due_date.map optVal
  | .title => u.title.map .vStr
  | .location => u.location.map optVal

/-- One iteration of the tracked-field loop of `update_defect`: when the field
is in the payload and its value differs from the current one, stage a history
entry. -/
def update_history_slot (defect : Defect) (update_data : DefectUpdate)
    (user_id : String) (field : TrackedField) : Option DefectHistory :=
  match payloadGet update_data field with
  | none => none
  | some new_value =>
    let old_value := defectGet defect field
    if old_value ≠ new_value then
      some (create_history_entry defect.id user_id field.pyName old_value new_value)
    else
      none

/-- The history entries staged by the tracked-field loop of `update_defect`,
in `tracked_fields` order. -/
def tracked_history_entries (defect : Defect) (update_data : DefectUpdate)
    (user_id : String) : List DefectHistory :=
  tracked_fields.filterMap (update_history_slot defect update_data user_id)

/-- The `setattr` loop of `update_defect`: overwrite every field present in
`update_data` (including the untracked `description`). -/
def apply_update_data (d : Defect) (u : DefectUpdate) : Defect :=
  { d with
    title := u.title.getD d.title
    description := u.description.getD d.description
    priority := u.priority.getD d.priority
    status := u.status.getD d.status
    assignee_id := u.assignee_id.getD d.assignee_id
    due_date := u.due_date.getD d.due_date
    location := u.location.getD d.location }

/-- Tracked-field names are pairwise distinct. -/
theorem pyName_beq (g f : TrackedField) : (g.pyName == f.pyName) = (g == f) := by
  cases g <;> cases f <;> decide

/-- An entry staged by the slot for field `g` carries `g`'s name. -/
theorem update_history_slot_field_name (d : Defect) (u : DefectUpdate)
    (uid : String) (g : TrackedField) (h : DefectHistory)
    (hs : update_history_slot d u uid g = some h) :
    h.field_name = g.pyName := by
  unfold update_history_slot at hs
  split at hs
  · exact absurd hs (by simp)
  · simp only [ne_eq] at hs
    split at hs
    · cases hs
      rfl
    · exact absurd hs (by simp)

/-- Filtering the staged entries of a field list by one field's name keeps
exactly the entries of that field's slots. -/
theorem filterMap_slot_filter (d : Defect) (u : DefectUpdate) (uid : String)
    (f : TrackedField) (l : List TrackedField) :
    (l.filterMap (update_history_slot d u uid)).filter
        (fun h => h.field_name == f.pyName) =
      (l.filter (fun g => g == f)).filterMap (update_history_slot d u uid) := by
  induction l with
  | nil => rfl
  | cons g l ih =>
    cases hs : update_history_slot d u uid g with
    | none =>
      by_cases hgf : (g == f) = true
      · simp [List.filterMap_cons, List.filter_cons, hs, hgf, ih]
      · simp only [Bool.not_eq_true] at hgf
        simp [List.filterMap_cons, List.filter_cons, hs, hgf, ih]
    | some b =>
      have hb : b.field_name = g.pyName :=
        update_history_slot_field_name d u uid g b hs
      by_cases hgf : (g == f) = true
      · simp [List.filterMap_cons, List.filter_cons, hs, hgf, hb, pyName_beq, ih]
      · simp only [Bool.not_eq_true] at hgf
        simp [List.filterMap_cons, List.filter_cons, hs, hgf, hb, pyName_beq, ih]

/-- C2: in every partial update, each tracked field that is present in the
payload with a value differing from the defect's current value yields exactly
one history entry, whose snapshots are the stringified pre-mutation old value
and new value (with Python `None` stored as null, not as the string "None");
a present-but-equal tracked field yields no entry. -/
theorem update_defect_history_per_field (d : Defect) (u : DefectUpdate)
    (uid : String) (f : TrackedField) :
    ((tracked_history_entries d u uid).filter
        (fun h => h.field_name == f.pyName) =
      match payloadGet u f with
      | none => []
      | some nv =>
        if defectGet d f = nv then []
        else [{ defect_id := d.id, changed_by_id := uid, field_name := f.pyName,
                old_value := strOrNone (defectGet d f),
                new_value := strOrNone nv }])
    ∧ strOrNone .vNone = none := by
  refine ⟨?_, rfl⟩
  rw [tracked_history_entries, filterMap_slot_filter]
  have hl : tracked_fields.filter (fun g => g == f) = [f] := by
    cases f <;> rfl
  rw [hl]
  cases hpg : payloadGet u f with
  | none => simp [List.filterMap_cons, update_history_slot, hpg]
  | some nv =>
    by_cases heq : defectGet d f = nv
    · simp [List.filterMap_cons, update_history_slot, hpg, heq]
    · simp [List.filterMap_cons, update_history_slot, hpg, heq,
        create_history_entry]

/-- Outcome of the user-directory lookup performed by `validate_user_exists`
(`api/deps.py`): HTTP 200, HTTP 404, or any transport failure / other status
(with the detail message the source would attach). -/
inductive UserCheck
  | found
  | missing
  | unavailable (detail : String)

/-- `validate_user_exists` (`api/deps.py`): `True` when the directory answers
200, HTTP 404 when it answers 404, HTTP 503 on timeout, transport error or any
other status. -/
def validate_user_exists (dir : String → UserCheck) (user_id : String) :
    Except HTTPError Bool :=
  match dir user_id with
  | .found => .ok true
  | .missing => .error ⟨404, "User with ID " ++ user_id ++ " not found"⟩
  | .unavailable detail => .error ⟨503, detail⟩

/-- Caller roles carried by the JWT. -/
inductive Role
  | ENGINEER
  | MANAGER
  | ADMIN
  | SUPERVISOR
  | CUSTOMER
deriving DecidableEq, Repr

/-- The committed database state touched by one `update_defect` call: the
defect row addressed by the request (if it exists) and its committed history
rows. `get_db` (`db/database.py`) closes the session without committing when
the handler raises, so staged changes are discarded. -/
structure DefectsDB where
  defect : Option Defect
  history : List DefectHistory
deriving Repr

/-- The assignee-validation step of `update_defect`: only performed when
`assignee_id` is present in the payload and truthy (not `null`). -/
def assignee_validation (dir : String → UserCheck) (u : DefectUpdate) :
    Except HTTPError Bool :=
  match u.assignee_id with
  | some (some new_assignee) => validate_user_exists dir new_assignee
  | _ => .ok true

/-- The status-validation step of `update_defect`: only performed when
`status` is present in the payload. -/
def status_validation (defect : Defect) (u : DefectUpdate) :
    Except HTTPError Bool :=
  match u.status with
  | some new_status => check_valid_status_transition defect.status new_status
  | none => .ok true

/-- `update_defect` (`api/v1/defects.py`): load, authorize, validate assignee
and status transition, stage history entries for changed tracked fields, apply
the payload, bump `updated_at`, and commit everything in one transaction.
Returns the handler result together with the committed database state. -/
def update_defect (db : DefectsDB) (dir : String → UserCheck)
    (defect_id user_id : String) (user_role : Role) (defect_update : DefectUpdate)
    (now : ℚ) : Except HTTPError Defect × DefectsDB :=
  match db.defect with
  | none => (.error ⟨404, "Defect with ID " ++ defect_id ++ " not found"⟩, db)
  | some defect =>
    if user_role = .ENGINEER ∧ defect.author_id ≠ user_id ∧
        defect.assignee_id ≠ some user_id then
      (.error ⟨403, "Access denied. You can only update your own defects."⟩, db)
    else
      match assignee_validation dir defect_update with
      | .error e => (.error e, db)
      | .ok _ =>
        match status_validation defect defect_update with
        | .error e => (.error e, db)
        | .ok _ =>
          let entries := tracked_history_entries defect defect_update user_id
          let defect' :=
            { apply_update_data defect defect_update with updated_at := now }
          (.ok defect',
           { defect := some defect', history := db.history ++ entries })

/-- Failed assignee validation carries HTTP status 404 or 503. -/
theorem assignee_validation_code (dir : String → UserCheck) (u : DefectUpdate)
    (e : HTTPError) (h : assignee_validation dir u = .error e) :
    e.code = 404 ∨ e.code = 503 := by
  unfold assignee_validation at h
  split at h
  · unfold validate_user_exists at h
    split at h
    · exact absurd h (by simp)
    · cases h; exact Or.inl rfl
    · cases h; exact Or.inr rfl
  · exact absurd h (by simp)

/-- A rejected status transition always carries HTTP status 400. -/
theorem check_valid_status_transition_ok_or_400 :
    ∀ c p : DefectStatus,
      exceptOk (check_valid_status_transition c p) = true ∨
        exceptCode (check_valid_status_transition c p) = 400 := by
  decide

/-- Failed status validation carries HTTP status 400. -/
theorem status_validation_code (defect : Defect) (u : DefectUpdate)
    (e : HTTPError) (h : status_validation defect u = .error e) :
    e.code = 400 := by
  unfold status_validation at h
  split at h
  case h_1 ns _ =>
    rcases check_valid_status_transition_ok_or_400 defect.status ns with hc | hc
    · rw [h] at hc
      exact absurd hc (by simp [exceptOk])
    · rw [h] at hc
      exact hc
  case h_2 => exact absurd h (by simp)

/-- C4: the defect update is atomic — every failure (absent defect, forbidden
caller, assignee validation 404/503, illegal transition 400) leaves the
committed database untouched (no history row, no field change, no
`updated_at` bump); on success the history entries of all changed tracked
fields, the field updates and the `updated_at` bump commit together. -/
theorem update_defect_atomic (db : DefectsDB) (dir : String → UserCheck)
    (defect_id user_id : String) (user_role : Role) (u : DefectUpdate) (now : ℚ) :
    (exceptOk (update_defect db dir defect_id user_id user_role u now).1 = false
      ∧ (update_defect db dir defect_id user_id user_role u now).2 = db
      ∧ exceptCode (update_defect db dir defect_id user_id user_role u now).1
          ∈ [400, 403, 404, 503])
    ∨ (∃ defect defect', db.defect = some defect
        ∧ defect' = { apply_update_data defect u with updated_at := now }
        ∧ (update_defect db dir defect_id user_id user_role u now).1 = .ok defect'
        ∧ (update_defect db dir defect_id user_id user_role u now).2 =
            { defect := some defect',
              history := db.history ++ tracked_history_entries defect u user_id }) := by
  cases hd : db.defect with
  | none =>
    left
    simp [update_defect, hd, exceptOk, exceptCode]
  | some defect =>
    by_cases hforb : user_role = .ENGINEER ∧ defect.author_id ≠ user_id ∧
        defect.assignee_id ≠ some user_id
    · left
      simp [update_defect, hd, hforb, exceptOk, exceptCode]
    · cases hav : assignee_validation dir u with
      | error e =>
        left
        have hc := assignee_validation_code dir u e hav
        simp only [update_defect, hd, hforb, if_false, hav, exceptOk, exceptCode]
        rcases hc with hc | hc <;> simp [hc]
      | ok b =>
        cases hsv : status_validation defect u with
        | error e =>
          left
          have hc := status_validation_code defect u e hsv
          simp only [update_defect, hd, hforb, if_false, hav, hsv, exceptOk,
            exceptCode]
          simp [hc]
        | ok b' =>
          right
          refine ⟨defect, { apply_update_data defect u with updated_at := now },
            rfl, rfl, ?_, ?_⟩ <;>
            simp [update_defect, hd, hforb, hav, hsv]

/-- An option whose value is either absent or a given default collapses to the
default under `getD`. -/
theorem getD_of_echo {α : Type} (o : Option α) (x : α)
    (h : o = none ∨ o = some x) : o.getD x = x := by
  rcases h with h | h <;> simp [h]

/-- Extract the payload value from an echo fact through an injective value
encoding. -/
theorem map_echo_extract {α : Type} (f : α → FieldVal)
    (hf : Function.Injective f) (o : Option α) (a : α)
    (h : o.map f = none ∨ o.map f = some (f a)) : o = none ∨ o = some a := by
  cases o with
  | none => exact Or.inl rfl
  | some x =>
    right
    rcases h with h | h
    · exact absurd h (by simp)
    · have hx : f x = f a := by simpa using h
      rw [hf hx]

theorem vStr_injective : Function.Injective FieldVal.vStr := by
  intro a b h
  injection h

theorem vStatus_injective : Function.Injective FieldVal.vStatus := by
  intro a b h
  injection h

theorem vPriority_injective : Function.Injective FieldVal.vPriority := by
  intro a b h
  injection h

theorem optVal_injective : Function.Injective optVal := by
  intro a b h
  cases a <;> cases b <;> simp [optVal] at h <;> simp [h]

/-- A tracked field whose payload value is absent or equal to the current value
stages no history entry. -/
theorem update_history_slot_echo (d : Defect) (u : DefectUpdate) (uid : String)
    (f : TrackedField)
    (h : payloadGet u f = none ∨ payloadGet u f = some (defectGet d f)) :
    update_history_slot d u uid f = none := by
  unfold update_history_slot
  rcases h with h | h <;> rw [h]
  simp

/-- C3: re-issuing an identical PATCH (defect present, caller authorized, user
directory healthy, every payload field equal to the defect's current value)
succeeds, creates zero new history entries, leaves every defect field
unchanged except `updated_at`, and still refreshes `updated_at` to the current
time — the operation is not idempotent on the timestamp. -/
theorem update_defect_identical_patch (db : DefectsDB)
    (dir : String → UserCheck) (defect_id user_id : String) (user_role : Role)
    (u : DefectUpdate) (now : ℚ) (d : Defect)
    (hd : db.defect = some d)
    (hauth : ¬(user_role = .ENGINEER ∧ d.author_id ≠ user_id ∧
      d.assignee_id ≠ some user_id))
    (hdir : ∀ a, dir a = .found)
    (hecho : ∀ f, payloadGet u f = none ∨ payloadGet u f = some (defectGet d f))
    (hdesc : u.description = none ∨ u.description = some d.description) :
    update_defect db dir defect_id user_id user_role u now =
      (.ok { d with updated_at := now },
       { defect := some { d with updated_at := now },
         history := db.history }) := by
  have htitle := map_echo_extract _ vStr_injective u.title d.title (hecho .title)
  have hprio := map_echo_extract _ vPriority_injective u.priority d.priority
    (hecho .priority)
  have hstat := map_echo_extract _ vStatus_injective u.status d.status
    (hecho .status)
  have hass := map_echo_extract _ optVal_injective u.assignee_id d.assignee_id
    (hecho .assignee_id)
  have hdue := map_echo_extract _ optVal_injective u.due_date d.due_date
    (hecho .due_date)
  have hloc := map_echo_extract _ optVal_injective u.location d.location
    (hecho .location)
  have happly : apply_update_data d u = d := by
    rw [apply_update_data, getD_of_echo _ _ htitle, getD_of_echo _ _ hdesc,
      getD_of_echo _ _ hprio, getD_of_echo _ _ hstat, getD_of_echo _ _ hass,
      getD_of_echo _ _ hdue, getD_of_echo _ _ hloc]
  have hhist : tracked_history_entries d u user_id = [] := by
    have hs := fun f => update_history_slot_echo d u user_id f (hecho f)
    simp [tracked_history_entries, tracked_fields, List.filterMap_cons, hs]
  have hav : assignee_validation dir u = .ok true := by
    unfold assignee_validation
    rcases hass with h | h <;> rw [h]
    cases hda : d.assignee_id with
    | none => rfl
    | some a => simp [validate_user_exists, hdir a]
  have hsv : status_validation d u = .ok true := by
    unfold status_validation
    rcases hstat with h | h <;> rw [h]
    simp [check_valid_status_transition]
  simp [update_defect, hd, hauth, hav, hsv, happly, hhist]

/-- A concrete defect row used to exercise the identical-PATCH theorem. -/
def sampleDefect : Defect :=
  { id := "d1", title := "Crack", description := "Wall crack",
    priority := .HIGH, status := .IN_PROGRESS, author_id := "u1",
    assignee_id := some "u2", due_date := none, location := some "B1",
    updated_at := 0 }

/-- A PATCH payload that repeats every one of `sampleDefect`'s current
values. -/
def samplePatch : DefectUpdate :=
  { title := some "Crack", priority := some .HIGH, status := some .IN_PROGRESS,
    assignee_id := some (some "u2"), location := some (some "B1") }

/-- Database state holding `sampleDefect` and one prior history row. -/
def sampleDB : DefectsDB :=
  { defect := some sampleDefect,
    history := [{ defect_id := "d1", changed_by_id := "u1",
                  field_name := "created", old_value := none,
                  new_value := some "Defect created with status NEW" }] }

/-- A healthy user directory: every lookup answers 200. -/
def sampleDir : String → UserCheck := fun _ => .found

/-- Witness for C3: the identical PATCH at time 5 returns the defect with only
`updated_at` changed (from 0 to 5) and commits no new history entry. -/
theorem update_defect_identical_patch_witness :
    update_defect sampleDB sampleDir "d1" "u9" .MANAGER samplePatch 5 =
      (.ok { sampleDefect with updated_at := 5 },
       { defect := some { sampleDefect with updated_at := 5 },
         history := sampleDB.history })
    ∧ ({ sampleDefect with updated_at := 5 } : Defect).updated_at ≠
        sampleDefect.updated_at :=
  ⟨update_defect_identical_patch sampleDB sampleDir "d1" "u9" .MANAGER
      samplePatch 5 sampleDefect rfl (by decide) (fun _ => rfl) (by decide)
      (by decide),
   by decide⟩

/-! ## Retrying HTTP proxy core (`svc_gateway/core/http.py`) -/

/-- What one attempt of `httpx` yields: an HTTP response (any status code,
including 5xx) or a transport-level failure (`httpx.TimeoutException` /
`httpx.RequestError`), identified by its message. -/
inductive AttemptOutcome
  | response (statusCode : Nat)
  | transportError (msg : String)
deriving DecidableEq, Repr

/-- Whether the attempt produced a transport-level failure. -/
def AttemptOutcome.isTransportError : AttemptOutcome → Bool
  | .transportError _ => true
  | .response _ => false

/-- Whether the attempt produced an HTTP response. -/
def AttemptOutcome.isResponse : AttemptOutcome → Bool
  | .response _ => true
  | .transportError _ => false

/-- The result carried out of one attempt: the raw response, or the raised
exception when attempts are exhausted. -/
def AttemptOutcome.toResult : AttemptOutcome → Except String Nat
  | .response r => .ok r
  | .transportError e => .error e

/-- The observable trace of `request_with_retry`: its result, the number of
attempts performed, and the sleeps (in order) between attempts. -/
structure RetryTrace where
  result : Except String Nat
  attempts : Nat
  delays : List ℚ
deriving Repr

/-- The `for attempt in range(retries + 1)` loop of `request_with_retry`:
`attempt` is the current index into the network behaviour `net`, `remaining`
is `retries - attempt`. A response returns immediately; a transport error
re-raises on the final attempt and otherwise sleeps
`retry_delay * (attempt + 1)` before the next attempt. -/
def retryLoop (net : Nat → AttemptOutcome) (retry_delay : ℚ) :
    Nat → Nat → RetryTrace
  | attempt, 0 =>
    { result := (net attempt).toResult, attempts := 1, delays := [] }
  | attempt, remaining + 1 =>
    match net attempt with
    | .response r => { result := .ok r, attempts := 1, delays := [] }
    | .transportError _ =>
      let rest := retryLoop net retry_delay (attempt + 1) remaining
      { result := rest.result, attempts := rest.attempts + 1,
        delays := retry_delay * ((attempt : ℚ) + 1) :: rest.delays }

/-- `request_with_retry` (`svc_gateway/core/http.py`), observed as a trace:
`net i` is what the i-th HTTP attempt would yield. -/
def request_with_retry (net : Nat → AttemptOutcome) (retries : Nat)
    (retry_delay : ℚ) : RetryTrace :=
  retryLoop net retry_delay 0 retries

/-- Shape of `retryLoop` starting at `attempt` with `remaining` retries left:
at most `remaining + 1` attempts, every attempt before the last one was a
transport error, linear-backoff sleeps, the result is exactly the last
attempt's outcome, and an early stop only happens on a response. -/
theorem retryLoop_characterization (net : Nat → AttemptOutcome)
    (retry_delay : ℚ) :
    ∀ remaining attempt,
      (retryLoop net retry_delay attempt remaining).attempts ≤ remaining + 1
      ∧ 1 ≤ (retryLoop net retry_delay attempt remaining).attempts
      ∧ ((List.range ((retryLoop net retry_delay attempt remaining).attempts - 1)).all
          (fun i => (net (attempt + i)).isTransportError)) = true
      ∧ (retryLoop net retry_delay attempt remaining).delays =
          (List.range ((retryLoop net retry_delay attempt remaining).attempts - 1)).map
            (fun i : ℕ => retry_delay * ((attempt : ℚ) + (i : ℚ) + 1))
      ∧ (retryLoop net retry_delay attempt remaining).result =
          (net (attempt + ((retryLoop net retry_delay attempt remaining).attempts - 1))).toResult
      ∧ ((retryLoop net retry_delay attempt remaining).attempts = remaining + 1
          ∨ (net (attempt + ((retryLoop net retry_delay attempt remaining).attempts - 1))).isResponse = true) := by
  intro remaining
  induction remaining with
  | zero =>
    intro attempt
    refine ⟨le_refl _, le_refl _, rfl, rfl, ?_, Or.inl rfl⟩
    simp [retryLoop]
  | succ n ih =>
    intro attempt
    cases hnet : net attempt with
    | response r =>
      refine ⟨?_, ?_, ?_, ?_, ?_, ?_⟩ <;>
        simp [retryLoop, hnet, AttemptOutcome.toResult, AttemptOutcome.isResponse]
    | transportError e =>
      obtain ⟨h1, h2, h3, h4, h5, h6⟩ := ih (attempt + 1)
      have hrec : retryLoop net retry_delay attempt (n + 1) =
          { result := (retryLoop net retry_delay (attempt + 1) n).result,
            attempts := (retryLoop net retry_delay (attempt + 1) n).attempts + 1,
            delays := retry_delay * ((attempt : ℚ) + 1) ::
              (retryLoop net retry_delay (attempt + 1) n).delays } := by
        simp [retryLoop, hnet]
      set t := retryLoop net retry_delay (attempt + 1) n with ht
      obtain ⟨k, hk⟩ : ∃ k, t.attempts = k + 1 :=
        ⟨t.attempts - 1, (Nat.succ_pred_eq_of_pos h2).symm⟩
      have hk1 : t.attempts - 1 = k := by omega
      refine ⟨?_, ?_, ?_, ?_, ?_, ?_⟩
      · rw [hrec]
        exact Nat.succ_le_succ h1
      · rw [hrec]
        exact Nat.succ_le_succ (Nat.zero_le _)
      · rw [hrec]
        simp only [Nat.add_sub_cancel]
        rw [hk, List.range_succ_eq_map]
        rw [hk1] at h3
        simp only [List.all_cons, List.all_map, Bool.and_eq_true]
        refine ⟨by simp [hnet, AttemptOutcome.isTransportError], ?_⟩
        rw [List.all_eq_true] at h3 ⊢
        intro i hi
        have hsucc : attempt + Nat.succ i = attempt + 1 + i := by omega
        simpa [Function.comp, hsucc] using h3 i hi
      · rw [hrec]
        simp only [Nat.add_sub_cancel]
        rw [hk, List.range_succ_eq_map, List.map_cons, List.map_map]
        rw [hk1] at h4
        rw [h4]
        congr 1
        · push_cast
          ring
        · apply List.map_congr_left
          intro i _
          simp only [Function.comp_apply]
          push_cast
          ring
      · rw [hrec]
        simp only [Nat.add_sub_cancel]
        rw [h5]
        have : attempt + 1 + (t.attempts - 1) = attempt + t.attempts := by omega
        rw [this]
      · rw [hrec]
        simp only [Nat.add_sub_cancel]
        rcases h6 with h6 | h6
        · exact Or.inl (by omega)
        · right
          have : attempt + 1 + (t.attempts - 1) = attempt + t.attempts := by
            omega
          rw [this] at h6
          exact h6

/-- C5: `request_with_retry` with `retries = n` performs at most `n + 1`
attempts; a retry happens only after a transport-level failure, sleeping
`retry_delay * (attemptIndex + 1)` (linear backoff) before the next attempt;
the returned result is exactly the last attempt's outcome — so any HTTP
response (a 500 included) is returned immediately from its single attempt,
and when the final allowed attempt also fails at the transport level the last
error is propagated instead of retrying. -/
theorem request_with_retry_characterization (net : Nat → AttemptOutcome)
    (retries : Nat) (retry_delay : ℚ) :
    (request_with_retry net retries retry_delay).attempts ≤ retries + 1
    ∧ 1 ≤ (request_with_retry net retries retry_delay).attempts
    ∧ ((List.range ((request_with_retry net retries retry_delay).attempts - 1)).all
        (fun i => (net i).isTransportError)) = true
    ∧ (request_with_retry net retries retry_delay).delays =
        (List.range ((request_with_retry net retries retry_delay).attempts - 1)).map
          (fun i : ℕ => retry_delay * ((i : ℚ) + 1))
    ∧ (request_with_retry net retries retry_delay).result =
        (net ((request_with_retry net retries retry_delay).attempts - 1)).toResult
    ∧ ((request_with_retry net retries retry_delay).attempts = retries + 1
        ∨ (net ((request_with_retry net retries retry_delay).attempts - 1)).isResponse = true) := by
  obtain ⟨h1, h2, h3, h4, h5, h6⟩ := retryLoop_characterization net retry_delay retries 0
  exact ⟨h1, h2, by simpa using h3, by simpa using h4, by simpa using h5,
    by simpa using h6⟩

/-! ## Report generator (`svc_reports/services/report_generator.py`) -/

/-- A defect record as the report service receives it from upstream JSON:
`dict.get` of an absent key yields `None`, hence every field is optional. -/
structure DefectDict where
  status : Option String := none
  priority : Option String := none
  created_at : Option String := none
  updated_at : Option String := none
deriving DecidableEq, Repr

/-- Python truthiness of a `dict.get` string result: `None` and the empty
string are falsy. -/
def isTruthy : Option String → Bool
  | none => false
  | some s => !(s == "")

/-- Python truthiness, keeping the truthy value (used where the source both
tests and consumes the value). -/
def truthyString : Option String → Option String
  | none => none
  | some s => if s == "" then none else some s

/-- `s.replace("Z", "+00:00")` — the pattern is a single character, so this is
a character-wise substitution. -/
def replaceZChars : List Char → List Char
  | [] => []
  | c :: rest =>
    if c = 'Z' then '+' :: '0' :: '0' :: ':' :: '0' :: '0' :: replaceZChars rest
    else c :: replaceZChars rest

/-- `created_at_str.replace("Z", "+00:00")` as performed by the source before
`datetime.fromisoformat`. -/
def pyReplaceZ (s : String) : String :=
  ⟨replaceZChars s.data⟩

/-- Gregorian leap year. -/
def isLeap (y : Nat) : Bool :=
  (y % 4 == 0 && !(y % 100 == 0)) || y % 400 == 0

/-- Number of days in a month of the proleptic Gregorian calendar. -/
def daysInMonth (y m : Nat) : Nat :=
  if m = 2 then (if isLeap y then 29 else 28)
  else if m = 4 ∨ m = 6 ∨ m = 9 ∨ m = 11 then 30
  else 31

/-- Days between a civil date and 1970-01-01 (Howard Hinnant's
days-from-civil algorithm, restricted to years ≥ 1 as `datetime` is). -/
def daysFromCivil (y m d : Nat) : Int :=
  let yAdj := if m ≤ 2 then y - 1 else y
  let era := yAdj / 400
  let yoe := yAdj % 400
  let mp := (m + 9) % 12
  let doy := (153 * mp + 2) / 5 + d - 1
  let doe := yoe * 365 + yoe / 4 - yoe / 100 + doy
  (era * 146097 + doe : Int) - 719468

/-- A parsed `datetime`: civil date, time of day, microseconds, and an
optional UTC offset in minutes (`none` = naive datetime). -/
structure PyDateTime where
  year : Nat
  month : Nat
  day : Nat
  hour : Nat
  minute : Nat
  second : Nat
  microsecond : Nat
  offsetMinutes : Option Int
deriving DecidableEq, Repr

/-- Read exactly `n` decimal digits, most significant first. -/
def readDigits : Nat → Nat → List Char → Option (Nat × List Char)
  | 0, acc, cs => some (acc, cs)
  | k + 1, acc, cs =>
    match cs with
    | [] => none
    | c :: rest =>
      if c.isDigit then readDigits k (acc * 10 + (c.toNat - 48)) rest
      else none

/-- Consume one expected character. -/
def expectChar (c : Char) : List Char → Option (List Char)
  | [] => none
  | c' :: rest => if c' = c then some rest else none

/-- Consume a maximal run of decimal digits, returning their value and count. -/
def takeDigits : List Char → Nat × Nat × List Char
  | [] => (0, 0, [])
  | c :: rest =>
    if c.isDigit then
      let (v, n, r) := takeDigits rest
      ((c.toNat - 48) * 10 ^ n + v, n + 1, r)
    else
      (0, 0, c :: rest)

/-- Optional fractional-seconds part `.d{1..6}`, scaled to microseconds. -/
def parseFraction : List Char → Option (Nat × List Char)
  | '.' :: rest =>
    let (v, n, r) := takeDigits rest
    if 1 ≤ n ∧ n ≤ 6 then some (v * 10 ^ (6 - n), r) else none
  | cs => some (0, cs)

/-- Optional UTC offset `±HH:MM` (strictly less than 24 hours). -/
def parseOffset : List Char → Option (Option Int × List Char)
  | [] => some (none, [])
  | '+' :: rest =>
    (readDigits 2 0 rest).bind fun (oh, cs) =>
      (expectChar ':' cs).bind fun cs =>
        (readDigits 2 0 cs).bind fun (om, cs) =>
          if om ≤ 59 ∧ oh ≤ 23 then some (some ((oh * 60 + om : Nat) : Int), cs)
          else none
  | '-' :: rest =>
    (readDigits 2 0 rest).bind fun (oh, cs) =>
      (expectChar ':' cs).bind fun cs =>
        (readDigits 2 0 cs).bind fun (om, cs) =>
          if om ≤ 59 ∧ oh ≤ 23 then some (some (-((oh * 60 + om : Nat) : Int)), cs)
          else none
  | cs => some (none, cs)

/-- `datetime.fromisoformat`, restricted to the shapes the services emit:
`YYYY-MM-DD[{T or space}HH:MM:SS[.ffffff][±HH:MM]]`. Returns `none` where
Python raises `ValueError`. -/
def fromisoformat (s : String) : Option PyDateTime :=
  (readDigits 4 0 s.data).bind fun (y, cs) =>
    (expectChar '-' cs).bind fun cs =>
      (readDigits 2 0 cs).bind fun (mo, cs) =>
        (expectChar '-' cs).bind fun cs =>
          (readDigits 2 0 cs).bind fun (dy, cs) =>
            if ¬(1 ≤ y ∧ 1 ≤ mo ∧ mo ≤ 12 ∧ 1 ≤ dy ∧ dy ≤ daysInMonth y mo) then
              none
            else
              match cs with
              | [] => some ⟨y, mo, dy, 0, 0, 0, 0, none⟩
              | c :: cs =>
                if ¬(c = 'T' ∨ c = ' ') then none
                else
                  (readDigits 2 0 cs).bind fun (hh, cs) =>
                    (expectChar ':' cs).bind fun cs =>
                      (readDigits 2 0 cs).bind fun (mi, cs) =>
                        (expectChar ':' cs).bind fun cs =>
                          (readDigits 2 0 cs).bind fun (ss, cs) =>
                            if ¬(hh ≤ 23 ∧ mi ≤ 59 ∧ ss ≤ 59) then none
                            else
                              (parseFraction cs).bind fun (micro, cs) =>
                                (parseOffset cs).bind fun (off, cs) =>
                                  if cs = [] then
                                    some ⟨y, mo, dy, hh, mi, ss, micro, off⟩
                                  else none

/-- Seconds since the epoch of a parsed datetime (naive datetimes are placed
on the epoch timeline without offset; they are never compared against aware
ones, see `pySubSeconds`). -/
def PyDateTime.epochSeconds (t : PyDateTime) : ℚ :=
  (daysFromCivil t.year t.month t.day : ℚ) * 86400
    + (t.hour : ℚ) * 3600 + (t.minute : ℚ) * 60 + (t.second : ℚ)
    + (t.microsecond : ℚ) / 1000000
    - ((t.offsetMinutes.getD 0 : ℤ) : ℚ) * 60

/-- `(a - b).total_seconds()` on datetimes: defined for aware−aware and
naive−naive, a `TypeError` (`none`) on a mixed pair. -/
def pySubSeconds (a b : PyDateTime) : Option ℚ :=
  match a.offsetMinutes, b.offsetMinutes with
  | some _, some _ => some (a.epochSeconds - b.epochSeconds)
  | none, none => some (a.epochSeconds - b.epochSeconds)
  | _, _ => none

/-- The parsed `created_at` of a defect dict (as the source parses it). -/
def parsedCreated (d : DefectDict) : Option PyDateTime :=
  fromisoformat (pyReplaceZ (d.created_at.getD ""))

/-- The parsed `updated_at` of a defect dict (as the source parses it). -/
def parsedUpdated (d : DefectDict) : Option PyDateTime :=
  fromisoformat (pyReplaceZ (d.updated_at.getD ""))

/-- One iteration of the `calculate_average_resolution_time` loop: skip
non-CLOSED defects, skip falsy timestamps, skip unparseable timestamps
(`ValueError` is caught), and compute `(updated_at - created_at)` in days;
a naive/aware mix raises an uncaught `TypeError` (modelled as `.error`). -/
def defectResolutionTime (d : DefectDict) : Except String (Option ℚ) :=
  if d.status ≠ some "CLOSED" then .ok none
  else if ¬(isTruthy d.created_at) ∨ ¬(isTruthy d.updated_at) then .ok none
  else
    match parsedCreated d, parsedUpdated d with
    | some c, some u =>
      match pySubSeconds u c with
      | some secs => .ok (some (secs / 86400))
      | none => .error "TypeError: cannot subtract offset-naive and offset-aware datetimes"
    | _, _ => .ok none

/-- The `resolution_times` list accumulated by
`calculate_average_resolution_time`, in source order. -/
def resolution_times_loop : List DefectDict → Except String (List ℚ)
  | [] => .ok []
  | d :: rest =>
    match defectResolutionTime d with
    | .error e => .error e
    | .ok none => resolution_times_loop rest
    | .ok (some t) =>
      match resolution_times_loop rest with
      | .error e => .error e
      | .ok ts => .ok (t :: ts)

/-- `calculate_average_resolution_time` (`report_generator.py`): mean of the
collected resolution times in days, `None` when none qualified. -/
def calculate_average_resolution_time (defects : List DefectDict) :
    Except String (Option ℚ) :=
  match resolution_times_loop defects with
  | .error e => .error e
  | .ok ts =>
    .ok (if ts.isEmpty then none else some (ts.sum / (ts.length : ℚ)))

/-- The claim's qualification predicate: a CLOSED defect both of whose
timestamps parse successfully. -/
def closedAndParses (d : DefectDict) : Bool :=
  d.status == some "CLOSED" && (parsedCreated d).isSome && (parsedUpdated d).isSome

/-- The claim's per-defect resolution time: `(updated_at - created_at)` in
fractional days over a 86400-second day. -/
def specResolutionDays (d : DefectDict) : ℚ :=
  match parsedCreated d, parsedUpdated d with
  | some c, some u => (u.epochSeconds - c.epochSeconds) / 86400
  | _, _ => 0

/-- Both timestamps, when they parse, agree on being aware or naive (always
true for the upstream services, which emit aware UTC timestamps). -/
def datetimesCompatible (d : DefectDict) : Bool :=
  match parsedCreated d, parsedUpdated d with
  | some c, some u => c.offsetMinutes.isSome == u.offsetMinutes.isSome
  | _, _ => true

/-- A falsy timestamp string (absent or empty) never parses. -/
theorem untruthy_parse_none (o : Option String) (h : isTruthy o = false) :
    fromisoformat (pyReplaceZ (o.getD "")) = none := by
  cases o with
  | none => rfl
  | some s =>
    simp only [isTruthy, Bool.not_eq_false', beq_iff_eq] at h
    subst h
    rfl

/-- One loop iteration agrees with the claim's per-defect description. -/
theorem defectResolutionTime_spec (d : DefectDict)
    (hc : datetimesCompatible d = true) :
    defectResolutionTime d =
      .ok (if closedAndParses d then some (specResolutionDays d) else none) := by
  unfold defectResolutionTime closedAndParses specResolutionDays
  by_cases hst : d.status = some "CLOSED"
  · rw [if_neg (by simp [hst])]
    by_cases htc : isTruthy d.created_at
    · by_cases htu : isTruthy d.updated_at
      · rw [if_neg (by simp [htc, htu])]
        unfold datetimesCompatible at hc
        cases hpc : parsedCreated d with
        | none => simp [hpc, hst]
        | some c =>
          cases hpu : parsedUpdated d with
          | none => simp [hpc, hpu, hst]
          | some u =>
            have hc' : c.offsetMinutes.isSome = u.offsetMinutes.isSome := by
              rw [hpc, hpu] at hc
              simpa using hc
            cases co : c.offsetMinutes <;> cases uo : u.offsetMinutes <;>
              rw [co, uo] at hc' <;>
              simp_all [pySubSeconds, hpc, hpu, hst, co, uo]
      · rw [if_pos (by simp [htu])]
        have := untruthy_parse_none d.updated_at (by simpa using htu)
        simp [parsedUpdated, this]
    · rw [if_pos (by simp [htc])]
      have := untruthy_parse_none d.created_at (by simpa using htc)
      simp [parsedCreated, this]
  · rw [if_pos (by simp [hst])]
    simp [hst]

/-- The accumulated resolution-time list is exactly the map of the claim's
formula over the qualifying defects, in order. -/
theorem resolution_times_loop_spec (l : List DefectDict)
    (hc : l.all datetimesCompatible = true) :
    resolution_times_loop l =
      .ok ((l.filter closedAndParses).map specResolutionDays) := by
  induction l with
  | nil => rfl
  | cons d rest ih =>
    rw [List.all_cons, Bool.and_eq_true] at hc
    obtain ⟨hd, hrest⟩ := hc
    have hspec := defectResolutionTime_spec d hd
    cases hq : closedAndParses d with
    | true =>
      rw [hq, if_pos rfl] at hspec
      simp [resolution_times_loop, hspec, ih hrest, List.filter_cons, hq]
    | false =>
      rw [hq] at hspec
      simp only [Bool.false_eq_true, if_false] at hspec
      simp only [resolution_times_loop, hspec, ih hrest, List.filter_cons, hq,
        Bool.false_eq_true, if_false]

/-- The claim's concrete defect: CLOSED, created 2024-01-01T00:00:00Z,
updated 2024-01-04T00:00:00Z. -/
def resolutionExample : DefectDict :=
  { status := some "CLOSED", created_at := some "2024-01-01T00:00:00Z",
    updated_at := some "2024-01-04T00:00:00Z" }

/-- C6: over defects whose timestamps are uniformly aware or naive (as the
upstream services emit), the average resolution time is the arithmetic mean of
`(updated_at - created_at) / 86400`-seconds-days of exactly the CLOSED defects
whose two timestamps parse; unparseable defects are skipped, not zeroed; the
result is `None` (never a default 0) when no closed defect qualifies; and on
the singleton claim example it is exactly 3. -/
theorem calculate_average_resolution_time_spec (defects : List DefectDict)
    (hc : defects.all datetimesCompatible = true) :
    calculate_average_resolution_time defects =
      .ok (if (defects.filter closedAndParses).isEmpty then none
        else some (((defects.filter closedAndParses).map specResolutionDays).sum /
          (((defects.filter closedAndParses).map specResolutionDays).length : ℚ)))
    ∧ calculate_average_resolution_time [resolutionExample] = .ok (some 3) := by
  constructor
  · rw [calculate_average_resolution_time, resolution_times_loop_spec defects hc]
    cases hl : defects.filter closedAndParses with
    | nil => simp
    | cons a l => simp
  · rw [calculate_average_resolution_time,
      resolution_times_loop_spec [resolutionExample] (by decide)]
    have hq : [resolutionExample].filter closedAndParses = [resolutionExample] := by
      decide
    rw [hq]
    have h1 : parsedCreated resolutionExample =
        some ⟨2024, 1, 1, 0, 0, 0, 0, some 0⟩ := by decide
    have h2 : parsedUpdated resolutionExample =
        some ⟨2024, 1, 4, 0, 0, 0, 0, some 0⟩ := by decide
    have h3 : specResolutionDays resolutionExample = 3 := by
      unfold specResolutionDays
      rw [h1, h2]
      norm_num [PyDateTime.epochSeconds, daysFromCivil]
    simp [h3]

/-- Witness for C6: the claim's singleton CLOSED defect yields exactly 3.0
days. -/
theorem calculate_average_resolution_time_spec_witness :
    calculate_average_resolution_time [resolutionExample] = .ok (some 3) :=
  (calculate_average_resolution_time_spec [resolutionExample] (by decide)).2

/-- `StatusDistribution` response schema (`schemas/reports.py`). -/
structure StatusDistribution where
  status : DefectStatus
  count : Nat
deriving DecidableEq, Repr

/-- `PriorityDistribution` response schema (`schemas/reports.py`). -/
structure PriorityDistribution where
  priority : DefectPriority
  count : Nat
deriving DecidableEq, Repr

/-- `DefectStatus(s)` — enum construction from a string; `none` models the
`ValueError` Python raises on a non-member value. -/
def statusOfString (s : String) : Option DefectStatus :=
  if s = "NEW" then some .NEW
  else if s = "IN_PROGRESS" then some .IN_PROGRESS
  else if s = "ON_REVIEW" then some .ON_REVIEW
  else if s = "CLOSED" then some .CLOSED
  else if s = "CANCELED" then some .CANCELED
  else none

/-- `DefectPriority(p)` — enum construction from a string. -/
def priorityOfString (s : String) : Option DefectPriority :=
  if s = "LOW" then some .LOW
  else if s = "MEDIUM" then some .MEDIUM
  else if s = "HIGH" then some .HIGH
  else if s = "CRITICAL" then some .CRITICAL
  else none

/-- `counts[key] += 1` on a `defaultdict(int)` held in insertion order. -/
def bump (l : List (String × Nat)) (k : String) : List (String × Nat) :=
  match l with
  | [] => [(k, 1)]
  | (k', c) :: rest => if k' = k then (k', c + 1) :: rest else (k', c) :: bump rest k

/-- The `defaultdict(int)` counting loop: group the keys and count
occurrences, keys in first-appearance order (Python dict iteration order). -/
def groupCounts (xs : List String) : List (String × Nat) :=
  xs.foldl bump []

/-- The list comprehension building `StatusDistribution(status=DefectStatus(s),
count=c)` rows: raises `ValueError` (modelled as `.error`) at the first
non-member status key. -/
def statusRows : List (String × Nat) → Except String (List StatusDistribution)
  | [] => .ok []
  | (s, c) :: rest =>
    match statusOfString s with
    | none => .error ("ValueError: " ++ s ++ " is not a valid DefectStatus")
    | some st =>
      match statusRows rest with
      | .error e => .error e
      | .ok l => .ok ({ status := st, count := c } :: l)

/-- The corresponding rows for priorities. -/
def priorityRows : List (String × Nat) → Except String (List PriorityDistribution)
  | [] => .ok []
  | (s, c) :: rest =>
    match priorityOfString s with
    | none => .error ("ValueError: " ++ s ++ " is not a valid DefectPriority")
    | some p =>
      match priorityRows rest with
      | .error e => .error e
      | .ok l => .ok ({ priority := p, count := c } :: l)

/-- `calculate_status_distribution` (`report_generator.py`): count defects by
status, skipping falsy (`None` or empty) values. -/
def calculate_status_distribution (defects : List DefectDict) :
    Except String (List StatusDistribution) :=
  statusRows (groupCounts (defects.filterMap (fun d => truthyString d.status)))

/-- `calculate_priority_distribution` (`report_generator.py`). -/
def calculate_priority_distribution (defects : List DefectDict) :
    Except String (List PriorityDistribution) :=
  priorityRows (groupCounts (defects.filterMap (fun d => truthyString d.priority)))

/-- `DefectSummaryReport` (`schemas/reports.py`), restricted to the aggregate
fields computed by `generate_summary_report`. -/
structure DefectSummaryReport where
  total_defects : Nat
  status_distribution : List StatusDistribution
  priority_distribution : List PriorityDistribution
  average_resolution_time_days : Option ℚ
  closed_defects_count : Nat
  open_defects_count : Nat
deriving Repr

/-- `generate_summary_report` (`report_generator.py`): total, both
distributions, average resolution time, and the closed / open counters
(`status == "CLOSED"` versus `status in ["NEW", "IN_PROGRESS", "ON_REVIEW"]`).
Any `ValueError`/`TypeError` raised by the helpers propagates. -/
def generate_summary_report (defects : List DefectDict) :
    Except String DefectSummaryReport :=
  match calculate_status_distribution defects with
  | .error e => .error e
  | .ok status_dist =>
    match calculate_priority_distribution defects with
    | .error e => .error e
    | .ok priority_dist =>
      match calculate_average_resolution_time defects with
      | .error e => .error e
      | .ok avg_resolution =>
        .ok { total_defects := defects.length
              status_distribution := status_dist
              priority_distribution := priority_dist
              average_resolution_time_days := avg_resolution
              closed_defects_count :=
                defects.countP (fun d => d.status == some "CLOSED")
              open_defects_count :=
                defects.countP (fun d => d.status == some "NEW" ||
                  d.status == some "IN_PROGRESS" || d.status == some "ON_REVIEW") }

/-- Bumping a key raises the total count by one. -/
theorem sum_map_snd_bump (l : List (String × Nat)) (k : String) :
    ((bump l k).map Prod.snd).sum = ((l.map Prod.snd).sum) + 1 := by
  induction l with
  | nil => simp [bump]
  | cons kc rest ih =>
    obtain ⟨k', c⟩ := kc
    by_cases hk : k' = k
    · simp [bump, hk]
      omega
    · simp [bump, hk, ih]
      omega

/-- Folding the counting loop adds the number of processed keys. -/
theorem sum_map_snd_foldl_bump :
    ∀ (xs : List String) (acc : List (String × Nat)),
      (((xs.foldl bump acc).map Prod.snd).sum) = ((acc.map Prod.snd).sum) + xs.length := by
  intro xs
  induction xs with
  | nil => intro acc; simp
  | cons x rest ih =>
    intro acc
    simp only [List.foldl_cons, List.length_cons]
    rw [ih (bump acc x), sum_map_snd_bump]
    omega

/-- The grouped counts sum to the number of grouped keys. -/
theorem groupCounts_sum (xs : List String) :
    ((groupCounts xs).map Prod.snd).sum = xs.length := by
  unfold groupCounts
  rw [sum_map_snd_foldl_bump]
  simp

/-- Converting count rows to `StatusDistribution` rows preserves the counts. -/
theorem statusRows_counts :
    ∀ (counts : List (String × Nat)) (dist : List StatusDistribution),
      statusRows counts = .ok dist →
        dist.map (fun r => r.count) = counts.map Prod.snd := by
  intro counts
  induction counts with
  | nil =>
    intro dist h
    cases h
    rfl
  | cons sc rest ih =>
    obtain ⟨s, c⟩ := sc
    intro dist h
    unfold statusRows at h
    split at h
    · exact absurd h (by simp)
    · split at h
      · exact absurd h (by simp)
      · rename_i l hl
        cases h
        simpa using ih l hl

/-- `filterMap` keeps as many elements as the `isSome` filter. -/
theorem length_filterMap_isSome {α β : Type} (f : α → Option β) (l : List α) :
    (l.filterMap f).length = (l.filter (fun a => (f a).isSome)).length := by
  induction l with
  | nil => rfl
  | cons a rest ih =>
    cases hf : f a <;> simp [List.filterMap_cons, List.filter_cons, hf, ih]

/-- C8 (amended): whenever the status distribution computes successfully, its
counts sum to the number of defects whose status is non-null AND non-empty
(Python truthiness): null- or empty-status defects are silently excluded, and
every other defect feeds exactly one group's count. -/
theorem calculate_status_distribution_sum (defects : List DefectDict)
    (dist : List StatusDistribution)
    (h : calculate_status_distribution defects = .ok dist) :
    (dist.map (fun r => r.count)).sum =
      (defects.filter (fun d => (truthyString d.status).isSome)).length := by
  unfold calculate_status_distribution at h
  rw [statusRows_counts _ _ h, groupCounts_sum, length_filterMap_isSome]

/-- A defect dict whose `status` key holds the empty string: non-null, yet
falsy for Python. -/
def emptyStatusDefect : DefectDict :=
  { status := some "" }

/-- Counterexample to C8 as stated: for the singleton set holding
`emptyStatusDefect` the distribution is empty (sum of counts 0), while the
number of defects with a non-null status is 1. -/
theorem status_distribution_sum_counterexample :
    calculate_status_distribution [emptyStatusDefect] = .ok []
    ∧ ((([] : List StatusDistribution)).map (fun r => r.count)).sum = 0
    ∧ ([emptyStatusDefect].filter (fun d => d.status.isSome)).length = 1
    ∧ ((([] : List StatusDistribution)).map (fun r => r.count)).sum ≠
        ([emptyStatusDefect].filter (fun d => d.status.isSome)).length :=
  ⟨rfl, rfl, rfl, by decide⟩

/-- Defect set exercising the amended C8 sum: one NEW, one CLOSED, one
status-less and one empty-status defect. -/
def statusDemoDefects : List DefectDict :=
  [{ status := some "NEW" }, { status := some "CLOSED" },
   { status := none }, { status := some "" }]

/-- The distribution the source computes for `statusDemoDefects`. -/
def statusDemoDist : List StatusDistribution :=
  [{ status := .NEW, count := 1 }, { status := .CLOSED, count := 1 }]

/-- Witness for C8: on `statusDemoDefects` the distribution sums to 2, the
number of truthy-status defects. -/
theorem calculate_status_distribution_sum_witness :
    calculate_status_distribution statusDemoDefects = .ok statusDemoDist
    ∧ (statusDemoDist.map (fun r => r.count)).sum =
        (statusDemoDefects.filter (fun d => (truthyString d.status).isSome)).length :=
  ⟨rfl, calculate_status_distribution_sum statusDemoDefects statusDemoDist rfl⟩

/-- Predicate: the defect's status is one of the five enum values (the shape
every record actually stored by the defects service has). -/
def hasEnumStatus (d : DefectDict) : Bool :=
  match d.status with
  | some s => (statusOfString s).isSome
  | none => false

/-- Closed, open and canceled counters partition a set of enum-status
defects. -/
theorem status_partition (defects : List DefectDict)
    (hv : defects.all hasEnumStatus = true) :
    defects.countP (fun d => d.status == some "CLOSED") +
      defects.countP (fun d => d.status == some "NEW" ||
        d.status == some "IN_PROGRESS" || d.status == some "ON_REVIEW") +
      defects.countP (fun d => d.status == some "CANCELED") = defects.length := by
  induction defects with
  | nil => rfl
  | cons d rest ih =>
    rw [List.all_cons, Bool.and_eq_true] at hv
    obtain ⟨hd, hrest⟩ := hv
    have ih' := ih hrest
    simp only [List.countP_cons, List.length_cons]
    unfold hasEnumStatus at hd
    cases hds : d.status with
    | none =>
      rw [hds] at hd
      simp at hd
    | some s =>
      rw [hds] at hd
      have hs : s = "NEW" ∨ s = "IN_PROGRESS" ∨ s = "ON_REVIEW" ∨
          s = "CLOSED" ∨ s = "CANCELED" := by
        by_contra hcon
        push_neg at hcon
        obtain ⟨h1, h2, h3, h4, h5⟩ := hcon
        simp [statusOfString, h1, h2, h3, h4, h5] at hd
      rcases hs with h | h | h | h | h <;> subst h <;> simp [hds] <;> omega

/-- C7: in every successfully generated summary report over enum-status
defects, `closed_defects_count` counts exactly the CLOSED defects,
`open_defects_count` exactly the NEW/IN_PROGRESS/ON_REVIEW ones, CANCELED
defects land in neither bucket, so closed + open ≤ total with equality
failing exactly when a CANCELED defect is present. -/
theorem generate_summary_report_partition (defects : List DefectDict)
    (r : DefectSummaryReport)
    (hr : generate_summary_report defects = .ok r)
    (hv : defects.all hasEnumStatus = true) :
    r.total_defects = defects.length
    ∧ r.closed_defects_count = defects.countP (fun d => d.status == some "CLOSED")
    ∧ r.open_defects_count = defects.countP (fun d => d.status == some "NEW" ||
        d.status == some "IN_PROGRESS" || d.status == some "ON_REVIEW")
    ∧ r.closed_defects_count + r.open_defects_count ≤ r.total_defects
    ∧ (r.closed_defects_count + r.open_defects_count = r.total_defects ↔
        defects.countP (fun d => d.status == some "CANCELED") = 0) := by
  unfold generate_summary_report at hr
  split at hr
  · exact absurd hr (by simp)
  · split at hr
    · exact absurd hr (by simp)
    · split at hr
      · exact absurd hr (by simp)
      · have hp := status_partition defects hv
        cases hr
        refine ⟨rfl, rfl, rfl, ?_, ?_⟩ <;> dsimp only <;> omega

/-- The claim's concrete scenario: one NEW, one CLOSED, one CANCELED. -/
def partitionDemo : List DefectDict :=
  [{ status := some "NEW" }, { status := some "CLOSED" },
   { status := some "CANCELED" }]

/-- The summary report the source computes for `partitionDemo`. -/
def partitionDemoReport : DefectSummaryReport :=
  { total_defects := 3
    status_distribution :=
      [{ status := .NEW, count := 1 }, { status := .CLOSED, count := 1 },
       { status := .CANCELED, count := 1 }]
    priority_distribution := []
    average_resolution_time_days := none
    closed_defects_count := 1
    open_defects_count := 1 }

/-- Witness for C7: the {1 NEW, 1 CLOSED, 1 CANCELED} scenario yields
closed = 1, open = 1, total = 3, and closed + open ≠ total. -/
theorem generate_summary_report_partition_witness :
    generate_summary_report partitionDemo = .ok partitionDemoReport
    ∧ partitionDemoReport.total_defects = 3
    ∧ partitionDemoReport.closed_defects_count = 1
    ∧ partitionDemoReport.open_defects_count = 1
    ∧ partitionDemoReport.closed_defects_count +
        partitionDemoReport.open_defects_count ≠
        partitionDemoReport.total_defects := by
  have h := generate_summary_report_partition partitionDemo partitionDemoReport
    rfl (by decide)
  exact ⟨rfl, h.1.trans (by decide), h.2.1.trans (by decide),
    h.2.2.1.trans (by decide), by decide⟩

/-! ## Report export endpoint (`svc_reports/api/v1/reports.py`) -/

/-- A Python exception escaping the endpoint: a deliberately raised
`fastapi.HTTPException`, or an `AttributeError` from a bad attribute lookup
(FastAPI turns the latter into a 500 response). -/
inductive PyError
  | httpException (code : Nat) (detail : String)
  | attributeError (msg : String)
deriving DecidableEq, Repr

/-- `MAX_EXPORT_ROWS` (`reports.py`). -/
def MAX_EXPORT_ROWS : Nat := 5000

/-- The message of the `AttributeError` raised by evaluating
`status.HTTP_400_BAD_REQUEST` inside `export_report`: the `status` *query
parameter* (an `Optional[DefectStatus]`) shadows the imported `fastapi.status`
module, and neither `None` nor a `DefectStatus` member has that attribute. -/
def attrErrMsg : Option DefectStatus → String
  | none => "NoneType object has no attribute HTTP_400_BAD_REQUEST"
  | some _ => "DefectStatus object has no attribute HTTP_400_BAD_REQUEST"

/-- Evaluation of `status.HTTP_400_BAD_REQUEST` under the parameter shadowing:
always an `AttributeError`, never a status code. -/
def statusModuleShadowLookup (statusParam : Option DefectStatus) :
    Except PyError Nat :=
  .error (.attributeError (attrErrMsg statusParam))

/-- The row-limit gate of `export_report` (`reports.py`): with more than
`MAX_EXPORT_ROWS` post-filter defects it evaluates
`HTTPException(status_code=status.HTTP_400_BAD_REQUEST, detail=...)` — whose
`status_code` argument raises first — and otherwise passes every row through
to serialization untruncated. -/
def export_report (defects : List DefectDict)
    (statusParam : Option DefectStatus) : Except PyError (List DefectDict) :=
  if defects.length > MAX_EXPORT_ROWS then
    match statusModuleShadowLookup statusParam with
    | .error e => .error e
    | .ok code =>
      .error (.httpException code
        ("Export limit exceeded. Found " ++ toString defects.length ++
          " defects, maximum allowed is " ++ toString MAX_EXPORT_ROWS ++
          ". Please apply more specific filters (date range, project, status, priority)."))
  else
    .ok defects

/-- C9 (code behaviour at the claim's inputs): the export ceiling is enforced
and never silently truncates — 5000 rows pass through whole — but when the
count exceeds 5000 the code does NOT produce the documented 400 client error
naming the count and ceiling: the `status` query parameter shadows the
`fastapi.status` module, so building the `HTTPException` raises an
`AttributeError` (an internal server error) on every overflow, for 5001 rows
in particular. -/
theorem export_report_limit_bug :
    (∀ (defects : List DefectDict) (statusParam : Option DefectStatus),
      export_report defects statusParam = .ok defects
      ∨ (defects.length > MAX_EXPORT_ROWS ∧
          export_report defects statusParam =
            .error (.attributeError (attrErrMsg statusParam))))
    ∧ export_report (List.replicate 5000 ({} : DefectDict)) none =
        .ok (List.replicate 5000 ({} : DefectDict))
    ∧ export_report (List.replicate 5001 ({} : DefectDict)) none =
        .error (.attributeError
          "NoneType object has no attribute HTTP_400_BAD_REQUEST") := by
  refine ⟨?_, ?_, ?_⟩
  · intro defects statusParam
    by_cases h : defects.length > MAX_EXPORT_ROWS
    · exact Or.inr ⟨h, by simp [export_report, h, statusModuleShadowLookup]⟩
    · exact Or.inl (by simp [export_report, h])
  · rw [export_report, List.length_replicate]
    norm_num [MAX_EXPORT_ROWS]
  · rw [export_report, List.length_replicate]
    norm_num [MAX_EXPORT_ROWS, statusModuleShadowLookup, attrErrMsg]

/-! ## Date-range filter (`report_generator.py`, `filter_by_date_range`) -/

/-- `start_date and created_date < start_date` (dates as epoch-day ordinals;
Python `date` ordering is ordinal ordering). -/
def beforeStart (start_date : Option Int) (created_date : Int) : Bool :=
  match start_date with
  | some s => created_date < s
  | none => false

/-- `end_date and created_date > end_date`. -/
def afterEnd (end_date : Option Int) (created_date : Int) : Bool :=
  match end_date with
  | some e => e < created_date
  | none => false

/-- The filtering loop of `filter_by_date_range` over a defect list. Falsy
`created_at` values are skipped; an unparseable `created_at` raises
`ValueError` (uncaught here, unlike in the average computation). -/
def filterGo (start_date end_date : Option Int) :
    List DefectDict → Except String (List DefectDict)
  | [] => .ok []
  | d :: rest =>
    if ¬(isTruthy d.created_at) then filterGo start_date end_date rest
    else
      match fromisoformat (pyReplaceZ (d.created_at.getD "")) with
      | none => .error "ValueError: invalid isoformat string"
      | some dt =>
        let created_date := daysFromCivil dt.year dt.month dt.day
        if beforeStart start_date created_date then
          filterGo start_date end_date rest
        else if afterEnd end_date created_date then
          filterGo start_date end_date rest
        else
          match filterGo start_date end_date rest with
          | .error e => .error e
          | .ok l => .ok (d :: l)

/-- `filter_by_date_range` (`report_generator.py`): identity when both bounds
are absent, otherwise the filtering loop. -/
def filter_by_date_range (defects : List DefectDict)
    (start_date end_date : Option Int) : Except String (List DefectDict) :=
  if start_date.isNone && end_date.isNone then .ok defects
  else filterGo start_date end_date defects

/-- The rows of a filter result (`[]` when it raised). -/
def exceptRows {ε : Type} : Except ε (List DefectDict) → List DefectDict
  | .ok l => l
  | .error _ => []

/-- Every defect surviving the filtering loop has a truthy `created_at`. -/
theorem filterGo_all_truthy (start_date end_date : Option Int) :
    ∀ l : List DefectDict,
      ((exceptRows (filterGo start_date end_date l)).all
        (fun d => isTruthy d.created_at)) = true := by
  intro l
  induction l with
  | nil => rfl
  | cons d rest ih =>
    rw [filterGo]
    by_cases ht : isTruthy d.created_at
    · rw [if_neg (by simp [ht])]
      cases hp : fromisoformat (pyReplaceZ (d.created_at.getD "")) with
      | none => rfl
      | some dt =>
        simp only []
        split
        · exact ih
        · split
          · exact ih
          · cases hrest : filterGo start_date end_date rest with
            | error e => rfl
            | ok okl =>
              rw [hrest] at ih
              simp only [exceptRows, List.all_cons, Bool.and_eq_true]
              exact ⟨by simp [ht], by simpa [exceptRows] using ih⟩
    · rw [if_pos (by simp [ht])]
      exact ih

/-- A defect dict with no `created_at` at all. -/
def noCreatedDefect : DefectDict :=
  { status := some "NEW" }

/-- A defect dict whose `created_at` is the empty string. -/
def emptyCreatedDefect : DefectDict :=
  { created_at := some "" }

/-- C10: `filter_by_date_range` is the identity only when both bounds are
absent; as soon as either bound is supplied, every defect whose `created_at`
is missing or empty is silently dropped — even by a bound that could not
reject it — so a defect lacking `created_at` appears in the unfiltered result
but vanishes from every date-bounded one. -/
theorem filter_by_date_range_truthy_only :
    (∀ defects : List DefectDict,
      filter_by_date_range defects none none = .ok defects)
    ∧ (∀ (defects : List DefectDict) (start_date end_date : Option Int),
        (start_date.isNone && end_date.isNone) = true
        ∨ ((exceptRows (filter_by_date_range defects start_date end_date)).all
            (fun d => isTruthy d.created_at)) = true)
    ∧ isTruthy noCreatedDefect.created_at = false
    ∧ filter_by_date_range [noCreatedDefect] none none = .ok [noCreatedDefect]
    ∧ filter_by_date_range [noCreatedDefect] (some 0) none = .ok []
    ∧ filter_by_date_range [noCreatedDefect] none (some 99999) = .ok []
    ∧ filter_by_date_range [emptyCreatedDefect] (some 0) none = .ok [] := by
  refine ⟨fun defects => rfl, ?_, rfl, rfl, rfl, rfl, rfl⟩
  intro defects start_date end_date
  by_cases hb : (start_date.isNone && end_date.isNone) = true
  · exact Or.inl hb
  · right
    rw [filter_by_date_range, if_neg (by simp [hb])]
    exact filterGo_all_truthy start_date end_date defects
